import Mathlib

/-!
Verification of the receptive-field calculator in `app.py`.

The development embeds the core classes of the source — `Layer` (with the
`Conv2D`, `MaxPool2D` and `AvgPool2D` constructors), and
`ReceptiveFieldCalculator` with its operations `reset`,
`set_input_dimensions`, `add_layer` and `compute_current_state` — together
with the Flask route handlers that guard them (`/api/set_input_dimensions`
and `/api/add_layer`).  Python integers are modelled as `Int`; the floating
point scalar `start` is modelled with exact rationals (`ℚ`), and Python's
`round(x, 3)` with banker's rounding on exact rationals (`pyRound3`).
State mutation is modelled by explicit state passing on `EngineState`.
-/

namespace RFCalc

/-- Layer category, replacing the Python class tags `Conv2DLayer`,
`MaxPool2DLayer`, `AvgPool2DLayer`. -/
inductive Category where
  | conv
  | maxPool
  | avgPool
deriving DecidableEq, Repr

/-- Embedding of class `Layer` (app.py lines 12-39): geometry fields set by
`Layer.__init__`.  The `category` field records which subclass constructed
the layer (used by the `isinstance(layer, Conv2DLayer)` test). -/
structure Layer where
  name : String
  kernel_size : Int
  stride : Int
  padding : Int
  dilation : Int
  category : Category
deriving DecidableEq, Repr

/-- Embedding of `Layer.get_effective_kernel_size` (app.py lines 29-31):
`(self.kernel_size - 1) * self.dilation + 1`. -/
def Layer.get_effective_kernel_size (l : Layer) : Int :=
  (l.kernel_size - 1) * l.dilation + 1

/-- Embedding of `Layer.compute_output_size` (app.py lines 33-39):
`math.floor((input_size + 2 * self.padding - effective_kernel) / self.stride) + 1`,
with the division read as exact-rational division followed by floor. -/
def Layer.compute_output_size (l : Layer) (input_size : Int) : Int :=
  ⌊((input_size + 2 * l.padding - l.get_effective_kernel_size : Int) : ℚ) /
      ((l.stride : Int) : ℚ)⌋ + 1

/-- Embedding of the `Conv2DLayer` constructor (app.py lines 45-54).  The
`groups` parameter is stored by the source but never read by any computation,
so it is not modelled. -/
def mkConv2D (kernel_size stride padding dilation : Int) : Layer :=
  { name := "Conv2D", kernel_size := kernel_size, stride := stride,
    padding := padding, dilation := dilation, category := Category.conv }

/-- Embedding of the `MaxPool2DLayer` constructor (app.py lines 77-81):
`PoolingLayer.__init__` passes dilation `1` unconditionally. -/
def mkMaxPool2D (kernel_size stride padding : Int) : Layer :=
  { name := "MaxPool2D", kernel_size := kernel_size, stride := stride,
    padding := padding, dilation := 1, category := Category.maxPool }

/-- Embedding of the `AvgPool2DLayer` constructor (app.py lines 84-88):
`PoolingLayer.__init__` passes dilation `1` unconditionally. -/
def mkAvgPool2D (kernel_size stride padding : Int) : Layer :=
  { name := "AvgPool2D", kernel_size := kernel_size, stride := stride,
    padding := padding, dilation := 1, category := Category.avgPool }

/-- State of a `ReceptiveFieldCalculator` instance: exactly the attributes
assigned by `reset` (app.py lines 97-105).  The scalars `rf`, `jump`, `start`
are stored by `reset` but never read by `compute_current_state`, which uses
fresh local variables; they are kept for faithfulness. -/
structure EngineState where
  rf : Int
  jump : Int
  start : ℚ
  layers : List Layer
  input_height : Int
  input_width : Int
  input_channels : Int
deriving DecidableEq, Repr

/-- The state produced by `ReceptiveFieldCalculator.reset` (app.py lines
97-105): `rf = 1`, `jump = 1`, `start = 0.5`, empty layer list, input
dimensions 224 by 224 by 3. -/
def resetState : EngineState :=
  { rf := 1, jump := 1, start := 1/2, layers := [],
    input_height := 224, input_width := 224, input_channels := 3 }

/-- Embedding of `ReceptiveFieldCalculator.reset` as a state transformer:
every field is overwritten with its default, so the result ignores the prior
state. -/
def reset (_st : EngineState) : EngineState := resetState

/-- Embedding of `ReceptiveFieldCalculator.set_input_dimensions` (app.py
lines 107-111): assigns the three input-dimension attributes, touching
nothing else.  The source method performs no validation. -/
def EngineState.set_input_dimensions (st : EngineState)
    (height width channels : Int) : EngineState :=
  { st with input_height := height, input_width := width,
            input_channels := channels }

/-- Spatial and channel dimensions, as carried through the trace loop. -/
structure Dimensions where
  height : Int
  width : Int
  channels : Int
deriving DecidableEq, Repr

/-- One entry of the `results` list built by `compute_current_state` (app.py
lines 151-169). -/
structure LayerResult where
  name : String
  kernel_size : Int
  stride : Int
  padding : Int
  dilation : Int
  effective_kernel : Int
  receptive_field : Int
  jump : Int
  start : ℚ
  input_height : Int
  input_width : Int
  input_channels : Int
  output_height : Int
  output_width : Int
  output_channels : Int
deriving DecidableEq, Repr

/-- The dictionary returned by `compute_current_state` (app.py lines
180-195). -/
structure Trace where
  layers : List LayerResult
  current_rf : Int
  current_jump : Int
  current_start : ℚ
  input_dimensions : Dimensions
  final_dimensions : Dimensions
deriving DecidableEq, Repr

/-- Python's `round` to the nearest integer with ties to even (banker's
rounding), on exact rationals. -/
def rndEven (q : ℚ) : Int :=
  if q - (⌊q⌋ : ℚ) < 1/2 then ⌊q⌋
  else if 1/2 < q - (⌊q⌋ : ℚ) then ⌊q⌋ + 1
  else if ⌊q⌋ % 2 = 0 then ⌊q⌋ else ⌊q⌋ + 1

/-- Python's `round(x, 3)` on exact rationals. -/
def pyRound3 (x : ℚ) : ℚ := ((rndEven (x * 1000) : Int) : ℚ) / 1000

/-- The `for layer in self.layers` loop of `compute_current_state` (app.py
lines 129-178), in state-passing form.  Arguments carry the running scalars
`(rf, j, start)` and the running dimensions; the result is the `results`
list together with the final scalars and final dimensions. -/
def computeGo : List Layer → Int × Int × ℚ → Dimensions →
    List LayerResult × (Int × Int × ℚ) × Dimensions
  | [], scal, dims => ([], scal, dims)
  | layer :: rest, (rf, j, start), dims =>
    let k_eff := layer.get_effective_kernel_size
    let p := layer.padding
    let s := layer.stride
    let rf_next := rf + (k_eff - 1) * j
    let start_next := start + (((k_eff - 1 : Int) : ℚ) / 2 - ((p : Int) : ℚ)) * ((j : Int) : ℚ)
    let j_next := j * s
    let output_height := layer.compute_output_size dims.height
    let output_width := layer.compute_output_size dims.width
    let output_channels :=
      if layer.category = Category.conv then dims.channels else dims.channels
    let row : LayerResult :=
      { name := layer.name, kernel_size := layer.kernel_size,
        stride := layer.stride, padding := layer.padding,
        dilation := layer.dilation, effective_kernel := k_eff,
        receptive_field := rf_next, jump := j_next,
        start := pyRound3 start_next,
        input_height := dims.height, input_width := dims.width,
        input_channels := dims.channels,
        output_height := output_height, output_width := output_width,
        output_channels := output_channels }
    let res := computeGo rest (rf_next, j_next, start_next)
      { height := output_height, width := output_width,
        channels := output_channels }
    (row :: res.1, res.2)

/-- Embedding of `ReceptiveFieldCalculator.compute_current_state` (app.py
lines 118-195): runs the loop from `rf = 1`, `j = 1`, `start = 0.5` and the
declared input dimensions, then assembles the result dictionary. -/
def EngineState.compute_current_state (st : EngineState) : Trace :=
  let res := computeGo st.layers (1, 1, 1/2)
    { height := st.input_height, width := st.input_width,
      channels := st.input_channels }
  { layers := res.1,
    current_rf := res.2.1.1,
    current_jump := res.2.1.2.1,
    current_start := pyRound3 res.2.1.2.2,
    input_dimensions :=
      { height := st.input_height, width := st.input_width,
        channels := st.input_channels },
    final_dimensions := res.2.2 }

/-- Embedding of `ReceptiveFieldCalculator.add_layer` (app.py lines
113-116): appends the layer, then returns the freshly computed state. -/
def EngineState.add_layer (st : EngineState) (layer : Layer) :
    EngineState × Trace :=
  let st' := { st with layers := st.layers ++ [layer] }
  (st', st'.compute_current_state)

/-- Purity of `compute_current_state` made explicit: the method reads
`self.layers` and the input dimensions and assigns only local variables, so
its state-passing embedding returns the state unchanged next to the trace. -/
def computeStateful (st : EngineState) : EngineState × Trace :=
  (st, st.compute_current_state)

/-- Embedding of the `/api/set_input_dimensions` route handler (app.py lines
342-361): rejects non-positive height, width or channels with the fixed
message and leaves the calculator untouched; otherwise stores the dimensions
and returns the recomputed trace. -/
def apiSetInputDimensions (st : EngineState) (height width channels : Int) :
    EngineState × Except String Trace :=
  if height ≤ 0 ∨ width ≤ 0 ∨ channels ≤ 0 then
    (st, Except.error "Dimensions must be positive integers")
  else
    let st' := st.set_input_dimensions height width channels
    (st', Except.ok st'.compute_current_state)

/-- Embedding of the `/api/add_layer` route handler (app.py lines 409-433):
dispatches on the layer type string, constructs the layer (no parameter
validation occurs anywhere on this path; the pooling branches discard the
request's dilation), and appends it via `add_layer`.  An unknown type is
rejected without touching the calculator. -/
def apiAddLayer (st : EngineState) (layer_type : String)
    (kernel_size stride padding dilation : Int) :
    EngineState × Except String Trace :=
  if layer_type = "conv" then
    let r := st.add_layer (mkConv2D kernel_size stride padding dilation)
    (r.1, Except.ok r.2)
  else if layer_type = "maxpool" then
    let r := st.add_layer (mkMaxPool2D kernel_size stride padding)
    (r.1, Except.ok r.2)
  else if layer_type = "avgpool" then
    let r := st.add_layer (mkAvgPool2D kernel_size stride padding)
    (r.1, Except.ok r.2)
  else
    (st, Except.error "Invalid layer type")

/-- Specification-side step of the four running scalars, following the
spec's words: `rf_next = rf + (k_eff − 1) × j`,
`j_next = j × stride`, `start_next = start + ((k_eff − 1)/2 − padding) × j`. -/
def specStep : Int × Int × ℚ → Layer → Int × Int × ℚ
  | (rf, j, start), l =>
    let k_eff := l.get_effective_kernel_size
    (rf + (k_eff - 1) * j, j * l.stride,
     start + (((k_eff - 1 : Int) : ℚ) / 2 - ((l.padding : Int) : ℚ)) * ((j : Int) : ℚ))

/-- Specification-side scalars after a whole layer sequence, starting from
`rf = 1`, `j = 1`, `start = 0.5`. -/
def specScalars (ls : List Layer) : Int × Int × ℚ :=
  List.foldl specStep (1, 1, 1/2) ls

/-- Specification-side dimension update for one layer: both spatial
dimensions through `output_size`, channels unchanged. -/
def specStepDims (d : Dimensions) (l : Layer) : Dimensions :=
  { height := l.compute_output_size d.height,
    width := l.compute_output_size d.width,
    channels := d.channels }

/-- Specification-side dimensions after a whole layer sequence. -/
def specDims (d : Dimensions) (ls : List Layer) : Dimensions :=
  List.foldl specStepDims d ls

/-- Specification-side per-layer row: the descriptor's parameters, its
effective kernel, the updated running scalars, and that layer's input and
output dimensions. -/
def specRow (l : Layer) (scal : Int × Int × ℚ) (din dout : Dimensions) :
    LayerResult :=
  { name := l.name, kernel_size := l.kernel_size, stride := l.stride,
    padding := l.padding, dilation := l.dilation,
    effective_kernel := l.get_effective_kernel_size,
    receptive_field := scal.1, jump := scal.2.1, start := scal.2.2,
    input_height := din.height, input_width := din.width,
    input_channels := din.channels,
    output_height := dout.height, output_width := dout.width,
    output_channels := dout.channels }

/-- Specification-side per-layer history of the forward scan. -/
def specRows : Int × Int × ℚ → Dimensions → List Layer → List LayerResult
  | _, _, [] => []
  | scal, d, l :: rest =>
    let scal' := specStep scal l
    let d' := specStepDims d l
    specRow l scal' d d' :: specRows scal' d' rest

/-- A rational that is an integer number of halves.  Every `start` value
reachable by the scan is of this form. -/
def HalfInt (x : ℚ) : Prop := ∃ n : Int, x = (n : ℚ) / 2

/-- An engine operation, for quantifying over arbitrary call sequences. -/
inductive Op where
  | addLayer (l : Layer)
  | setDims (height width channels : Int)

/-- Apply one operation to the engine state. -/
def applyOp (st : EngineState) : Op → EngineState
  | Op.addLayer l => (st.add_layer l).1
  | Op.setDims h w c => st.set_input_dimensions h w c

/-- Apply a sequence of operations to the engine state. -/
def applyOps (st : EngineState) (ops : List Op) : EngineState :=
  ops.foldl applyOp st

theorem halfInt_half : HalfInt (1/2 : ℚ) := ⟨1, by norm_num⟩

theorem HalfInt.stepAdd (x : ℚ) (m p j : Int) (hx : HalfInt x) :
    HalfInt (x + (((m : Int) : ℚ) / 2 - ((p : Int) : ℚ)) * ((j : Int) : ℚ)) := by
  obtain ⟨n, rfl⟩ := hx
  refine ⟨n + (m - 2 * p) * j, ?_⟩
  push_cast
  ring

/-- Rounding to three decimal places is the identity on integer numbers of
halves, so the display rounding in the source never changes a `start`
value. -/
theorem pyRound3_halfInt (x : ℚ) (hx : HalfInt x) : pyRound3 x = x := by
  obtain ⟨n, rfl⟩ := hx
  have h1 : ((n : ℚ) / 2) * 1000 = ((500 * n : Int) : ℚ) := by push_cast; ring
  unfold pyRound3 rndEven
  rw [h1, Int.floor_intCast, if_pos (by rw [sub_self]; norm_num)]
  push_cast
  ring

theorem halfInt_specStep (scal : Int × Int × ℚ) (l : Layer)
    (h : HalfInt scal.2.2) : HalfInt (specStep scal l).2.2 := by
  obtain ⟨rf, j, start⟩ := scal
  simpa [specStep] using
    HalfInt.stepAdd start (l.get_effective_kernel_size - 1) l.padding j h

theorem halfInt_foldl_specStep :
    ∀ (ls : List Layer) (scal : Int × Int × ℚ), HalfInt scal.2.2 →
      HalfInt (List.foldl specStep scal ls).2.2
  | [], _, h => h
  | l :: rest, scal, h =>
    halfInt_foldl_specStep rest (specStep scal l) (halfInt_specStep scal l h)

/-- The loop of `compute_current_state` is exactly the specification-side
scan: same rows, same final scalars, same final dimensions. -/
theorem computeGo_spec (ls : List Layer) :
    ∀ (rf j : Int) (start : ℚ) (d : Dimensions), HalfInt start →
      computeGo ls (rf, j, start) d =
        (specRows (rf, j, start) d ls, List.foldl specStep (rf, j, start) ls,
         List.foldl specStepDims d ls) := by
  induction ls with
  | nil => intro rf j start d _; rfl
  | cons l rest ih =>
    intro rf j start d h
    have h' : HalfInt (start + (((l.get_effective_kernel_size - 1 : Int) : ℚ) / 2 -
        ((l.padding : Int) : ℚ)) * ((j : Int) : ℚ)) :=
      HalfInt.stepAdd start (l.get_effective_kernel_size - 1) l.padding j h
    simp only [computeGo, specRows, specStep, specStepDims, specRow,
      List.foldl_cons, ih _ _ _ _ h', pyRound3_halfInt _ h', ite_self]

/-- Floor of an exact-rational integer quotient with a positive divisor is
integer floor division (round toward negative infinity), not truncation. -/
theorem floor_ratCast_div_eq_fdiv (a s : Int) (hs : 0 < s) :
    ⌊((a : Int) : ℚ) / ((s : Int) : ℚ)⌋ = a.fdiv s := by
  have hsn : s = (s.toNat : Int) := (Int.toNat_of_nonneg hs.le).symm
  rw [hsn]
  rw [show (((s.toNat : Int) : Int) : ℚ) = ((s.toNat : Nat) : ℚ) by push_cast; ring]
  rw [Rat.floor_intCast_div_natCast, Int.fdiv_eq_ediv]
  omega

theorem computeGo_channels (ls : List Layer) :
    ∀ (scal : Int × Int × ℚ) (d : Dimensions),
      ((computeGo ls scal d).2.2).channels = d.channels ∧
      ((computeGo ls scal d).1.all
        fun r => r.output_channels == r.input_channels) = true := by
  induction ls with
  | nil => intro scal d; exact ⟨rfl, rfl⟩
  | cons l rest ih =>
    intro scal d
    obtain ⟨rf, j, start⟩ := scal
    simp only [computeGo, List.all_cons, ite_self, Bool.and_eq_true, beq_iff_eq]
    exact ⟨(ih _ _).1, trivial, (ih _ _).2⟩

/-- C1: for every engine state, `compute_current_state` is the single
forward scan that starts from `rf = 1`, `j = 1`, `start = 0.5` and the
declared input dimensions, updates the scalars by
`rf_next = rf + (k_eff − 1) × j`,
`start_next = start + ((k_eff − 1)/2 − padding) × j`, `j_next = j × stride`,
records one row per layer with the updated scalars and that layer's
input/output dimensions, and finally reports the final scalars, the
original input dimensions and the final output dimensions. -/
theorem compute_current_state_forward_scan (st : EngineState) :
    st.compute_current_state =
      { layers := specRows (1, 1, 1/2)
          { height := st.input_height, width := st.input_width,
            channels := st.input_channels } st.layers,
        current_rf := (specScalars st.layers).1,
        current_jump := (specScalars st.layers).2.1,
        current_start := (specScalars st.layers).2.2,
        input_dimensions :=
          { height := st.input_height, width := st.input_width,
            channels := st.input_channels },
        final_dimensions := specDims
          { height := st.input_height, width := st.input_width,
            channels := st.input_channels } st.layers } := by
  have h := computeGo_spec st.layers 1 1 (1/2)
    { height := st.input_height, width := st.input_width,
      channels := st.input_channels } halfInt_half
  have hh := halfInt_foldl_specStep st.layers (1, 1, 1/2) halfInt_half
  simp only [EngineState.compute_current_state, h, specScalars, specDims,
    pyRound3_halfInt _ hh]

/-- C2: for a layer with positive kernel size, stride and dilation and
non-negative padding, `get_effective_kernel_size` is
`(kernel_size − 1) × dilation + 1` and `compute_output_size` is the
exact-rational floor formula
`floor((input_size + 2 × padding − effective_kernel)/stride) + 1`, which for
a positive stride agrees with integer floor division (round toward negative
infinity), not truncation. -/
theorem effective_kernel_and_output_size_formulas (l : Layer)
    (input_size : Int) (_hk : 1 ≤ l.kernel_size) (hs : 1 ≤ l.stride)
    (_hd : 1 ≤ l.dilation) (_hp : 0 ≤ l.padding) :
    l.get_effective_kernel_size = (l.kernel_size - 1) * l.dilation + 1 ∧
    l.compute_output_size input_size =
      ⌊((input_size + 2 * l.padding - l.get_effective_kernel_size : Int) : ℚ) /
        ((l.stride : Int) : ℚ)⌋ + 1 ∧
    l.compute_output_size input_size =
      (input_size + 2 * l.padding - l.get_effective_kernel_size).fdiv
        l.stride + 1 := by
  refine ⟨rfl, rfl, ?_⟩
  unfold Layer.compute_output_size
  rw [floor_ratCast_div_eq_fdiv _ _ (by omega)]

/-- Witness for C2 at a concrete layer: a 3-kernel, stride-2, padding-1
convolution on input 10 gives output 5. -/
theorem effective_kernel_and_output_size_formulas_witness :
    (1 ≤ (mkConv2D 3 2 1 1).kernel_size ∧ 1 ≤ (mkConv2D 3 2 1 1).stride ∧
     1 ≤ (mkConv2D 3 2 1 1).dilation ∧ 0 ≤ (mkConv2D 3 2 1 1).padding) ∧
    ((mkConv2D 3 2 1 1).get_effective_kernel_size =
        ((mkConv2D 3 2 1 1).kernel_size - 1) * (mkConv2D 3 2 1 1).dilation + 1 ∧
     (mkConv2D 3 2 1 1).compute_output_size 10 =
       ⌊((10 + 2 * (mkConv2D 3 2 1 1).padding -
           (mkConv2D 3 2 1 1).get_effective_kernel_size : Int) : ℚ) /
         (((mkConv2D 3 2 1 1).stride : Int) : ℚ)⌋ + 1 ∧
     (mkConv2D 3 2 1 1).compute_output_size 10 =
       (10 + 2 * (mkConv2D 3 2 1 1).padding -
         (mkConv2D 3 2 1 1).get_effective_kernel_size).fdiv
         (mkConv2D 3 2 1 1).stride + 1) ∧
    (mkConv2D 3 2 1 1).compute_output_size 10 = 5 := by
  refine ⟨by decide, effective_kernel_and_output_size_formulas (mkConv2D 3 2 1 1) 10
    (by decide) (by decide) (by decide) (by decide), ?_⟩
  rw [(effective_kernel_and_output_size_formulas (mkConv2D 3 2 1 1) 10
    (by decide) (by decide) (by decide) (by decide)).2.2]
  decide

/-- C3 counterexample: a convolution layer with the invalid kernel size 0 is
not rejected — the add-layer route accepts it and appends it to the
sequence. -/
theorem layer_validation_cex :
    (mkConv2D 0 1 0 1).kernel_size = 0 ∧
    apiAddLayer resetState "conv" 0 1 0 1 =
      ((resetState.add_layer (mkConv2D 0 1 0 1)).1,
       Except.ok (resetState.add_layer (mkConv2D 0 1 0 1)).2) ∧
    (apiAddLayer resetState "conv" 0 1 0 1).1.layers = [mkConv2D 0 1 0 1] :=
  ⟨rfl, rfl, rfl⟩

/-- C3 amended: no parameter validation happens at construction or in the
add-layer route — any integer parameters are accepted, and `add_layer`
unconditionally appends exactly one descriptor while leaving the input
specification unchanged; the only failure of the route is an unknown layer
type, which leaves the whole state untouched. -/
theorem add_layer_appends_without_validation (st : EngineState)
    (kernel_size stride padding dilation : Int) :
    apiAddLayer st "conv" kernel_size stride padding dilation =
      ({ st with layers :=
            st.layers ++ [mkConv2D kernel_size stride padding dilation] },
       Except.ok ({ st with layers :=
            st.layers ++ [mkConv2D kernel_size stride padding dilation] } :
          EngineState).compute_current_state) ∧
    (apiAddLayer st "conv" kernel_size stride padding dilation).1.input_height
        = st.input_height ∧
    (apiAddLayer st "conv" kernel_size stride padding dilation).1.input_width
        = st.input_width ∧
    (apiAddLayer st "conv" kernel_size stride padding
        dilation).1.input_channels = st.input_channels ∧
    apiAddLayer st "dense" kernel_size stride padding dilation =
      (st, Except.error "Invalid layer type") :=
  ⟨rfl, rfl, rfl, rfl, rfl⟩

/-- C4 counterexample: the validation error does not identify the invalid
field — an invalid height and an invalid width produce the very same
response. -/
theorem set_input_dimensions_error_generic_cex :
    apiSetInputDimensions resetState 0 10 3 =
      (resetState, Except.error "Dimensions must be positive integers") ∧
    apiSetInputDimensions resetState 10 0 3 =
      (resetState, Except.error "Dimensions must be positive integers") ∧
    (apiSetInputDimensions resetState 0 10 3).2 =
      (apiSetInputDimensions resetState 10 0 3).2 := by
  refine ⟨?_, ?_, ?_⟩ <;> rfl

/-- C4 amended: a call with a zero or negative height, width or channels
fails with the fixed message `Dimensions must be positive integers` (the
same for every invalid field, so the offending field is not identified) and
leaves the state untouched; with all three positive it replaces the input
specification and leaves the layer sequence unchanged. -/
theorem api_set_input_dimensions_validates (st : EngineState)
    (height width channels : Int) :
    (height ≤ 0 ∨ width ≤ 0 ∨ channels ≤ 0 →
      apiSetInputDimensions st height width channels =
        (st, Except.error "Dimensions must be positive integers")) ∧
    (0 < height → 0 < width → 0 < channels →
      apiSetInputDimensions st height width channels =
        (st.set_input_dimensions height width channels,
         Except.ok
           (st.set_input_dimensions height width
             channels).compute_current_state) ∧
      (st.set_input_dimensions height width channels).layers = st.layers) := by
  constructor
  · intro h
    simp only [apiSetInputDimensions, if_pos h]
  · intro hh hw hc
    have h : ¬(height ≤ 0 ∨ width ≤ 0 ∨ channels ≤ 0) := by omega
    exact ⟨by simp only [apiSetInputDimensions, if_neg h], rfl⟩

/-- Witness for C4 amended: an invalid call at height 0 and a valid call at
5 by 6 by 7, both on the default state. -/
theorem api_set_input_dimensions_validates_witness :
    ((0 : Int) ≤ 0 ∨ (10 : Int) ≤ 0 ∨ (3 : Int) ≤ 0) ∧
    apiSetInputDimensions resetState 0 10 3 =
      (resetState, Except.error "Dimensions must be positive integers") ∧
    ((0 : Int) < 5 ∧ (0 : Int) < 6 ∧ (0 : Int) < 7) ∧
    (apiSetInputDimensions resetState 5 6 7 =
      (resetState.set_input_dimensions 5 6 7,
       Except.ok
         (resetState.set_input_dimensions 5 6 7).compute_current_state) ∧
     (resetState.set_input_dimensions 5 6 7).layers = resetState.layers) :=
  ⟨Or.inl le_rfl,
   (api_set_input_dimensions_validates resetState 0 10 3).1 (Or.inl le_rfl),
   ⟨by decide, by decide, by decide⟩,
   (api_set_input_dimensions_validates resetState 5 6 7).2
     (by decide) (by decide) (by decide)⟩

/-- C5: after any sequence of add-layer and set-input-dimension operations,
`reset` restores exactly the default state (empty layers, 224 by 224 by 3),
independently of the preceding operations; it is idempotent, and the trace
of the reset state reports `rf = 1`, `jump = 1`, `start = 0.5`. -/
theorem reset_restores_default_state (st : EngineState) (ops : List Op) :
    reset (applyOps st ops) = resetState ∧
    reset (reset st) = reset st ∧
    resetState.layers = [] ∧
    resetState.input_height = 224 ∧
    resetState.input_width = 224 ∧
    resetState.input_channels = 3 ∧
    resetState.compute_current_state.current_rf = 1 ∧
    resetState.compute_current_state.current_jump = 1 ∧
    resetState.compute_current_state.current_start = 1/2 := by
  refine ⟨rfl, rfl, rfl, rfl, rfl, rfl, rfl, rfl, ?_⟩
  show pyRound3 (1/2) = 1/2
  exact pyRound3_halfInt _ halfInt_half

/-- C6: `compute_current_state` is a pure function of the engine state — it
returns the state unchanged, and running it twice in a row with no
intervening mutation yields identical traces. -/
theorem compute_trace_pure_deterministic (st : EngineState) :
    (computeStateful st).1 = st ∧
    (computeStateful ((computeStateful st).1)).2 = (computeStateful st).2 :=
  ⟨rfl, rfl⟩

/-- C7: the channel count never changes — every per-layer row has equal
output and input channels, and the final channels equal the declared input
channels, for every state. -/
theorem channels_never_change (st : EngineState) :
    ((st.compute_current_state).layers.all
      fun r => r.output_channels == r.input_channels) = true ∧
    (st.compute_current_state).final_dimensions.channels =
      st.input_channels := by
  have h := computeGo_channels st.layers (1, 1, 1/2)
    { height := st.input_height, width := st.input_width,
      channels := st.input_channels }
  exact ⟨h.2, h.1⟩

/-- C8: on the default state (224 by 224 by 3, no layers) the trace has
`rf = 1`, `jump = 1`, `start = 0.5`, final dimensions equal to the input
dimensions, and an empty per-layer list. -/
theorem empty_trace_defaults :
    resetState.compute_current_state =
      { layers := [], current_rf := 1, current_jump := 1,
        current_start := 1/2,
        input_dimensions := { height := 224, width := 224, channels := 3 },
        final_dimensions := { height := 224, width := 224, channels := 3 } } := by
  have h : pyRound3 (1/2 : ℚ) = 1/2 := pyRound3_halfInt _ halfInt_half
  simp only [EngineState.compute_current_state, resetState, computeGo, h]

/-- C9 counterexample: the row recorded for a 3-kernel stride-1 padding-0
convolution on the default input has start 1.5, not 1.0 — by the update rule
the new start is `0.5 + ((3 − 1)/2 − 0) × 1 = 1.5`. -/
theorem conv_start_not_one_cex :
    ((resetState.add_layer (mkConv2D 3 1 0 1)).2.layers.map fun r =>
        r.start) = [(3/2 : ℚ)] ∧
    (3/2 : ℚ) ≠ 1 := by
  constructor
  · norm_num [EngineState.add_layer, EngineState.compute_current_state,
      computeGo, resetState, mkConv2D, Layer.compute_output_size,
      Layer.get_effective_kernel_size, pyRound3, rndEven]
  · norm_num

/-- C9 amended: from a 224 by 224 input, a 3-kernel stride-1 convolution
yields a row with output 222 by 222, receptive field 3, jump 1 and start
1.5 (not 1.0); a following 2-kernel stride-2 max-pool yields output 111 by
111 with cumulative jump 2. -/
theorem conv_then_maxpool_example :
    ((resetState.add_layer (mkConv2D 3 1 0 1)).2.layers.map fun r =>
        (r.output_height, r.output_width, r.receptive_field, r.jump,
         r.start)) =
      [(222, 222, 3, 1, (3/2 : ℚ))] ∧
    ((((resetState.add_layer (mkConv2D 3 1 0 1)).1.add_layer
          (mkMaxPool2D 2 2 0)).2.layers.map fun r =>
        (r.output_height, r.output_width, r.jump)) =
      [(222, 222, 1), (111, 111, 2)]) := by
  constructor <;>
    norm_num [EngineState.add_layer, EngineState.compute_current_state,
      computeGo, resetState, mkConv2D, mkMaxPool2D,
      Layer.compute_output_size, Layer.get_effective_kernel_size,
      pyRound3, rndEven]

/-- C10: the pooling constructors store dilation 1 regardless of the
requested dilation — the add-layer route discards the request's dilation for
pooling types — so a pooling layer's effective kernel size equals its kernel
size. -/
theorem pooling_dilation_always_one (st : EngineState)
    (kernel_size stride padding dilation : Int) :
    (mkMaxPool2D kernel_size stride padding).dilation = 1 ∧
    (mkAvgPool2D kernel_size stride padding).dilation = 1 ∧
    (mkMaxPool2D kernel_size stride padding).get_effective_kernel_size =
      kernel_size ∧
    (mkAvgPool2D kernel_size stride padding).get_effective_kernel_size =
      kernel_size ∧
    apiAddLayer st "maxpool" kernel_size stride padding dilation =
      apiAddLayer st "maxpool" kernel_size stride padding 1 ∧
    apiAddLayer st "avgpool" kernel_size stride padding dilation =
      apiAddLayer st "avgpool" kernel_size stride padding 1 ∧
    (apiAddLayer st "maxpool" kernel_size stride padding dilation).1.layers =
      st.layers ++ [mkMaxPool2D kernel_size stride padding] ∧
    (apiAddLayer st "avgpool" kernel_size stride padding dilation).1.layers =
      st.layers ++ [mkAvgPool2D kernel_size stride padding] := by
  refine ⟨rfl, rfl, ?_, ?_, rfl, rfl, rfl, rfl⟩ <;>
    · simp only [Layer.get_effective_kernel_size, mkMaxPool2D, mkAvgPool2D]
      ring

end RFCalc
